import Mathlib

/-!
# MaterialViewportWidget: input-behaviour routing and entity glue

A shallow embedding of `MaterialViewportWidget.cpp` (Material Editor viewport of the
Atom renderer).  The widget registers ten input behaviours with a
`ViewportInputBehaviorController`, creates its entities through an entity context and
keeps a shadow-catcher material that is compiled once per tick.

The controller class itself (`AddBehavior`, the dispatch step, the `Keys` flag
constants) is declared in a header that is not among the sources; those parts are
modelled from the specification and are marked as such.
-/

namespace MaterialEditor

/-! ## Key masks -/

/-- A modifier/button combination: a bit mask held in an unsigned machine word. -/
abbrev KeyMask := Nat

/-- The flag constants `ViewportInputBehaviorController::None`, `Lmb`, `Mmb`, `Rmb`,
`Alt`, `Ctrl`, `Shift` used by `SetupInputController`.  Their numeric values are declared
outside the sources, so they are taken as a parameter. -/
structure Keys where
  None : KeyMask
  Lmb : KeyMask
  Mmb : KeyMask
  Rmb : KeyMask
  Alt : KeyMask
  Ctrl : KeyMask
  Shift : KeyMask
deriving DecidableEq, Repr

/-- A mask with exactly one bit set. -/
def SingleBit (x : KeyMask) : Prop := ∃ i, i < x ∧ x = 2 ^ i

instance (x : KeyMask) : Decidable (SingleBit x) := by
  unfold SingleBit; infer_instance

/-- The six button/modifier flags of a `Keys` assignment, in declaration order. -/
def Keys.flags (k : Keys) : List KeyMask := [k.Lmb, k.Mmb, k.Rmb, k.Alt, k.Ctrl, k.Shift]

/-- The assumption under which the flag constants are used: `None` is `0` and the six
button/modifier flags are distinct single bits. -/
def Keys.WellFormed (k : Keys) : Prop :=
  k.None = 0 ∧ (∀ x ∈ k.flags, SingleBit x) ∧ k.flags.Nodup

instance (k : Keys) : Decidable k.WellFormed := by
  unfold Keys.WellFormed; infer_instance

/-- One well-formed assignment, with the flags on consecutive bits starting at bit 0. -/
def consecutiveKeys : Keys :=
  { None := 0, Lmb := 1, Mmb := 2, Rmb := 4, Alt := 8, Ctrl := 16, Shift := 32 }

/-- The bits of a mask at six given positions. -/
def bitsAt (l m r a c s : Nat) (x : KeyMask) : List Bool :=
  [x.testBit l, x.testBit m, x.testBit r, x.testBit a, x.testBit c, x.testBit s]

/-! ## Behaviours -/

/-- The seven behaviour classes instantiated by `SetupInputController`
(`IdleBehavior`, `PanCameraBehavior`, `OrbitCameraBehavior`, `DollyCameraBehavior`,
`MoveCameraBehavior`, `RotateModelBehavior`, `RotateEnvironmentBehavior`).  A behaviour is
stateless across frames, so an instance is identified with its class. -/
inductive Behavior where
  | Idle
  | PanCamera
  | OrbitCamera
  | DollyCamera
  | MoveCamera
  | RotateModel
  | RotateEnvironment
deriving DecidableEq, Repr

/-- The camera and target transforms that behaviours mutate (owned outside the router). -/
structure Transforms (τ : Type) where
  camera : τ
  target : τ
deriving DecidableEq, Repr

/-- Modelled from the spec: the effect of one behaviour receiving a pointer delta.  `Idle`
is a no-op; every other variant produces a transform mutation, which the spec leaves
open and which is therefore the parameter `mutate`. -/
def applyBehavior {δ τ : Type} (mutate : Behavior → δ → Transforms τ → Transforms τ)
    (b : Behavior) (delta : δ) (s : Transforms τ) : Transforms τ :=
  match b with
  | Behavior.Idle => s
  | other => mutate other delta s

/-- A sample mutation for concrete evaluations: whichever behaviour is active shifts the
camera by the pointer delta. -/
def shiftCamera (_ : Behavior) (d : Int × Int) (t : Transforms (Int × Int)) :
    Transforms (Int × Int) :=
  { t with camera := (t.camera.1 + d.1, t.camera.2 + d.2) }

/-- Sample transforms for concrete evaluations. -/
def sampleTransforms : Transforms (Int × Int) := { camera := (0, 0), target := (5, 5) }

/-! ## Behaviour registry -/

/-- Modelled from the spec: the behaviour registry of `ViewportInputBehaviorController`,
a mapping from input combination to behaviour, kept as an association list with at most
one entry per key. -/
abbrev BehaviorMap := List (KeyMask × Behavior)

/-- Modelled from the spec: the registry without the entry, if any, for a combination. -/
def removeKey : BehaviorMap → KeyMask → BehaviorMap
  | [], _ => []
  | (key, b) :: rest, c => if key = c then removeKey rest c else (key, b) :: removeKey rest c

/-- Modelled from the spec: `ViewportInputBehaviorController::AddBehavior(combination,
behavior)` registers a handler for an exact bit mask; the last registration for a
duplicate key wins, so an earlier entry for the same key is dropped. -/
def AddBehavior (reg : BehaviorMap) (combination : KeyMask) (behavior : Behavior) :
    BehaviorMap :=
  (combination, behavior) :: removeKey reg combination

/-- Modelled from the spec: exact-match search of the registry for a combination. -/
def lookupBehavior : BehaviorMap → KeyMask → Option Behavior
  | [], _ => none
  | (key, b) :: rest, c => if key = c then some b else lookupBehavior rest c

/-- What one dispatch did: which behaviour received which delta, and the transforms
afterwards. -/
structure DispatchOutcome (δ τ : Type) where
  received : List (Behavior × δ)
  transforms : Transforms τ

/-- Modelled from the spec: `Dispatch(currentCombination, pointerDelta)` of the
`ViewportInputBehaviorController` looks up the exact match and forwards the delta to it,
falling back to `Idle` if the combination has no entry. -/
def Dispatch {δ τ : Type} (mutate : Behavior → δ → Transforms τ → Transforms τ)
    (reg : BehaviorMap) (currentCombination : KeyMask) (pointerDelta : δ)
    (s : Transforms τ) : DispatchOutcome δ τ :=
  let active :=
    match lookupBehavior reg currentCombination with
    | some b => b
    | none => Behavior.Idle
  { received := [(active, pointerDelta)]
    transforms := applyBehavior mutate active pointerDelta s }

/-- A registry built by a sequence of `AddBehavior` calls on a fresh controller, the
calls given in program order. -/
def registerAll (calls : List (KeyMask × Behavior)) : BehaviorMap :=
  calls.foldl (fun reg e => AddBehavior reg e.1 e.2) []

/-- The behaviour registered for a combination by a sequence of `AddBehavior` calls:
that of the last call naming the combination, if any. -/
def lastRegistration : List (KeyMask × Behavior) → KeyMask → Option Behavior
  | [], _ => none
  | (key, b) :: rest, c =>
    match lastRegistration rest c with
    | some later => some later
    | none => if key = c then some b else none

/-- The ten `AddBehavior` calls of `MaterialViewportWidget::SetupInputController`, in
source order: the combination and the behaviour class constructed for it. -/
def setupRegistrations (k : Keys) : List (KeyMask × Behavior) :=
  [ (k.None, Behavior.Idle),
    (k.Lmb, Behavior.PanCamera),
    (k.Mmb, Behavior.MoveCamera),
    (k.Rmb, Behavior.OrbitCamera),
    (k.Alt ^^^ k.Lmb, Behavior.OrbitCamera),
    (k.Alt ^^^ k.Mmb, Behavior.MoveCamera),
    (k.Alt ^^^ k.Rmb, Behavior.DollyCamera),
    (k.Lmb ^^^ k.Rmb, Behavior.DollyCamera),
    (k.Ctrl ^^^ k.Lmb, Behavior.RotateModel),
    (k.Shift ^^^ k.Lmb, Behavior.RotateEnvironment) ]

/-- The registry left in `m_viewportController` by
`MaterialViewportWidget::SetupInputController`: a fresh controller followed by the ten
`AddBehavior` calls. -/
def SetupInputController (k : Keys) : BehaviorMap :=
  let reg : BehaviorMap := []
  let reg := AddBehavior reg k.None Behavior.Idle
  let reg := AddBehavior reg k.Lmb Behavior.PanCamera
  let reg := AddBehavior reg k.Mmb Behavior.MoveCamera
  let reg := AddBehavior reg k.Rmb Behavior.OrbitCamera
  let reg := AddBehavior reg (k.Alt ^^^ k.Lmb) Behavior.OrbitCamera
  let reg := AddBehavior reg (k.Alt ^^^ k.Mmb) Behavior.MoveCamera
  let reg := AddBehavior reg (k.Alt ^^^ k.Rmb) Behavior.DollyCamera
  let reg := AddBehavior reg (k.Lmb ^^^ k.Rmb) Behavior.DollyCamera
  let reg := AddBehavior reg (k.Ctrl ^^^ k.Lmb) Behavior.RotateModel
  let reg := AddBehavior reg (k.Shift ^^^ k.Lmb) Behavior.RotateEnvironment
  reg

/-! ## Entity creation -/

/-- A component type id (`AZ::Uuid`). -/
abbrev Uuid := Nat

/-- A non-null `AZ::Entity*`. -/
abbrev EntityRef := Nat

/-- The calls `CreateEntity` makes on the entity it obtained. -/
inductive EntityCall where
  | CreateComponent (entity : EntityRef) (componentTypeId : Uuid)
  | Init (entity : EntityRef)
  | Activate (entity : EntityRef)
deriving DecidableEq, Repr

/-- Modelled from the spec: the engine macro `AZ_Assert`, fatal in a debug build
(`tracing`) and compiled out of a release build. -/
def azAssert (tracing : Bool) (condition : Bool) (message : String) : Except String Unit :=
  if tracing && !condition then Except.error message else Except.ok ()

/-- The loop `for (const auto& componentTypeId : componentTypeIds)` of `CreateEntity`:
one `CreateComponent` call per element, appended to the calls made so far. -/
def createComponents (entity : EntityRef) : List Uuid → List EntityCall → List EntityCall
  | [], calls => calls
  | componentTypeId :: rest, calls =>
    createComponents entity rest (calls ++ [EntityCall.CreateComponent entity componentTypeId])

/-- The function `MaterialViewportWidget::CreateEntity(name, componentTypeIds)`.
`contextCreate` is the answer of the entity context to the `CreateEntity` bus request
(`none` for a null pointer).  The result is the returned pointer together with the calls
made on the entity, or the assertion failure of a debug build. -/
def CreateEntity (tracing : Bool) (contextCreate : String → Option EntityRef)
    (name : String) (componentTypeIds : List Uuid) :
    Except String (Option EntityRef × List EntityCall) := do
  let entity := contextCreate name
  azAssert tracing entity.isSome ("Failed to create post process entity: " ++ name)
  match entity with
  | some e =>
    let calls := createComponents e componentTypeIds []
    let calls := calls ++ [EntityCall.Init e]
    let calls := calls ++ [EntityCall.Activate e]
    pure (some e, calls)
  | none => pure (none, [])

/-! ## Shadow-catcher material -/

/-- A non-null `AZ::Data::Instance<AZ::RPI::Material>`. -/
abbrev MaterialRef := Nat

/-- A loaded `AZ::Data::Asset<AZ::RPI::MaterialAsset>`. -/
abbrev MaterialAssetRef := Nat

/-- The type `AZ::RPI::MaterialPropertyIndex`; `none` is the invalid index. -/
abbrev MaterialPropertyIndex := Option Nat

/-- The members of the widget that the shadow-catcher set-up writes and `OnTick` reads. -/
structure ShadowCatcherMembers where
  m_shadowCatcherMaterial : Option MaterialRef
  m_shadowCatcherOpacityPropertyIndex : MaterialPropertyIndex
deriving DecidableEq, Repr

/-- The members as they are before the constructor body runs: the material pointer is
null, the property index has the default value of its type (declared outside the
sources, hence a parameter). -/
def ShadowCatcherMembers.initial (defaultIndex : MaterialPropertyIndex) :
    ShadowCatcherMembers :=
  { m_shadowCatcherMaterial := none, m_shadowCatcherOpacityPropertyIndex := defaultIndex }

/-- The calls into the engine made by the shadow-catcher set-up and by `OnTick`. -/
inductive ViewportCall where
  | ReportError (message : String)
  | SetMaterialOverrides (entity : EntityRef) (materialInstance : Option MaterialRef)
  | BaseOnTick
  | AddToRenderTickOnce
  | Compile (material : MaterialRef)
deriving DecidableEq, Repr

/-- Whether a call is `Material::Compile`. -/
def ViewportCall.isCompile : ViewportCall → Bool
  | ViewportCall.Compile _ => true
  | _ => false

/-- The engine services used while setting up the shadow catcher: the result of
`LoadAssetByProductPath("materials/special/shadowcatcher.azmaterial")` (`none` when no
asset is obtained), of `FindPropertyIndex("settings.opacity")` on the asset's layout, and
of `Material::Create` (`none` for a null instance). -/
structure MaterialServices where
  loadShadowCatcherAsset : Option MaterialAssetRef
  findOpacityIndex : MaterialAssetRef → MaterialPropertyIndex
  materialCreate : MaterialAssetRef → Option MaterialRef

/-- Modelled from the spec: the engine macro `AZ_Error`, which reports the message when
its condition fails in a build with diagnostics (`tracing`) and is compiled out
otherwise; it never stops the program. -/
def azError (tracing : Bool) (condition : Bool) (message : String) : List ViewportCall :=
  if tracing && !condition then [ViewportCall.ReportError message] else []

/-- The shadow-catcher material block of the constructor
(`auto shadowCatcherMaterialAsset = ...; if (shadowCatcherMaterialAsset) { ... }`). -/
def setupShadowCatcherMaterial (tracing : Bool) (services : MaterialServices)
    (shadowCatcherEntity : EntityRef) (w : ShadowCatcherMembers) :
    ShadowCatcherMembers × List ViewportCall :=
  match services.loadShadowCatcherAsset with
  | some asset =>
    let index := services.findOpacityIndex asset
    let w := { w with m_shadowCatcherOpacityPropertyIndex := index }
    let calls := azError tracing index.isSome "Could not find opacity property"
    let material := services.materialCreate asset
    let w := { w with m_shadowCatcherMaterial := material }
    let calls := calls ++
      azError tracing material.isSome "Could not create shadow catcher material."
    (w, calls ++ [ViewportCall.SetMaterialOverrides shadowCatcherEntity material])
  | none => (w, [])

/-- The handler `MaterialViewportWidget::OnTick`: the base-class tick, the render
pipeline request, and a `Compile` of the shadow-catcher material when there is one. -/
def OnTick (w : ShadowCatcherMembers) : ShadowCatcherMembers × List ViewportCall :=
  let calls := [ViewportCall.BaseOnTick, ViewportCall.AddToRenderTickOnce]
  match w.m_shadowCatcherMaterial with
  | some material => (w, calls ++ [ViewportCall.Compile material])
  | none => (w, calls)

/-- The calls of `n` successive ticks, one list per tick. -/
def runTicks : Nat → ShadowCatcherMembers → ShadowCatcherMembers × List (List ViewportCall)
  | 0, w => (w, [])
  | n + 1, w =>
    let (w1, calls) := OnTick w
    let (w2, later) := runTicks n w1
    (w2, calls :: later)

/-- The number of `Compile` calls in a list of calls. -/
def compileCalls (calls : List ViewportCall) : Nat := calls.countP ViewportCall.isCompile

/-- A sample entity context for concrete evaluations: it creates entity 7 for every name
except `"ViewportGrid"`, for which it returns null. -/
def sampleContext (name : String) : Option EntityRef :=
  if name = "ViewportGrid" then none else some 7

/-- Sample engine services for concrete evaluations: the shadow-catcher asset (11) loads,
its opacity property has index 3, and `Material::Create` returns a null instance. -/
def servicesCreateFails : MaterialServices :=
  { loadShadowCatcherAsset := some 11
    findOpacityIndex := fun _ => some 3
    materialCreate := fun _ => none }

/-- Sample engine services for concrete evaluations: the shadow-catcher asset (11) loads
and `Material::Create` returns the instance 21. -/
def servicesLoaded : MaterialServices :=
  { loadShadowCatcherAsset := some 11
    findOpacityIndex := fun _ => some 3
    materialCreate := fun _ => some 21 }

/-- Sample engine services for concrete evaluations: no shadow-catcher asset is
obtained. -/
def servicesAssetMissing : MaterialServices :=
  { loadShadowCatcherAsset := none
    findOpacityIndex := fun _ => some 3
    materialCreate := fun _ => some 21 }

/-! ## Model presets and the asset bus -/

/-- An asset id (`AZ::Data::AssetId`). -/
abbrev AssetId := Nat

/-- The address held by a non-null preset pointer (`ModelPresetPtr`, `LightingPresetPtr`);
two pointers are equal when they hold the same address. -/
abbrev PresetAddr := Nat

/-- The fields of `AZ::Render::ModelPreset` read by the widget; the model asset is
represented by its id. -/
structure ModelPreset where
  m_displayName : String
  m_modelAsset : AssetId
deriving DecidableEq, Repr

/-- The members of the widget written by `OnModelPresetSelected` and `OnAssetReady`: the
model asset id and the ids on which the `AZ::Data::AssetBus` handler of the widget is
connected. -/
structure ModelMembers where
  m_modelAssetId : AssetId
  assetBusConnected : List AssetId
deriving DecidableEq, Repr

/-- The requests that `OnModelPresetSelected` and `OnAssetReady` send to the model entity
and to the viewport controller, and the diagnostics they print.  Queries that only read
engine state are inputs of the handlers and are not recorded. -/
inductive ModelCall where
  | Warning (message : String)
  | SetModelAsset (entity : EntityRef) (asset : AssetId)
  | SetTargetBounds (aabb : Nat)
  | Reset
deriving DecidableEq, Repr

/-- Whether a call is the `SetModelAsset` request. -/
def ModelCall.isSetModelAsset : ModelCall → Bool
  | ModelCall.SetModelAsset _ _ => true
  | _ => false

/-- Modelled from the spec: the engine macro `AZ_Warning`, which prints the message when
its condition fails in a build with diagnostics (`tracing`) and is compiled out
otherwise; it never stops the program. -/
def azWarning (tracing : Bool) (condition : Bool) (message : String) : List ModelCall :=
  if tracing && !condition then [ModelCall.Warning message] else []

/-- Modelled from the spec: the handler call `AZ::Data::AssetBus::Handler::BusDisconnect()`
of the engine's asset bus (not among the sources): the handler is connected on no id
afterwards. -/
def busDisconnectAll (_ : List AssetId) : List AssetId := []

/-- Modelled from the spec: the handler call `AZ::Data::AssetBus::Handler::BusConnect(id)`
of the engine's asset bus (not among the sources): the handler is connected on `id` in
addition to the ids it was connected on. -/
def busConnect (id : AssetId) (connected : List AssetId) : List AssetId :=
  if id ∈ connected then connected else id :: connected

/-- Modelled from the spec: the handler call
`AZ::Data::AssetBus::Handler::BusDisconnect(id)` of the engine's asset bus (not among the
sources): the handler is no longer connected on `id`; other connections are kept. -/
def busDisconnect (id : AssetId) (connected : List AssetId) : List AssetId :=
  connected.filter (fun other => other != id)

/-- The handler `MaterialViewportWidget::OnModelPresetSelected(preset)`.  `isValid` is
`AssetId::IsValid`, `presets` gives the preset stored at an address, `modelEntity` is
`m_modelEntity->GetId()`; `preset` is `none` for a null pointer. -/
def OnModelPresetSelected (tracing : Bool) (isValid : AssetId → Bool)
    (presets : PresetAddr → ModelPreset) (modelEntity : EntityRef)
    (preset : Option PresetAddr) (w : ModelMembers) : ModelMembers × List ModelCall :=
  match preset with
  | none => (w, [])
  | some addr =>
    let p := presets addr
    if !isValid p.m_modelAsset then
      (w, azWarning tracing false
        ("Attempting to set invalid model for preset: '" ++ p.m_displayName ++ "'\n."))
    else if p.m_modelAsset = w.m_modelAssetId then
      (w, [])
    else
      let calls := [ModelCall.SetModelAsset modelEntity p.m_modelAsset]
      let w := { w with m_modelAssetId := p.m_modelAsset }
      let w := { w with assetBusConnected := busDisconnectAll w.assetBusConnected }
      let w := { w with assetBusConnected := busConnect w.m_modelAssetId w.assetBusConnected }
      (w, calls)

/-- The handler `MaterialViewportWidget::OnModelPresetChanged(preset)`.  `selection` is
the answer to the `GetModelPresetSelection` request (`none` for a null pointer). -/
def OnModelPresetChanged (tracing : Bool) (isValid : AssetId → Bool)
    (presets : PresetAddr → ModelPreset) (modelEntity : EntityRef)
    (selection : Option PresetAddr) (preset : Option PresetAddr) (w : ModelMembers) :
    ModelMembers × List ModelCall :=
  let selectedPreset := selection
  if selectedPreset = preset then
    OnModelPresetSelected tracing isValid presets modelEntity preset w
  else
    (w, [])

/-- The handler `MaterialViewportWidget::OnAssetReady(asset)`.  `getAabb` gives the
bounding box of a ready model asset; the asset is represented by its id. -/
def OnAssetReady (getAabb : AssetId → Nat) (asset : AssetId) (w : ModelMembers) :
    ModelMembers × List ModelCall :=
  if w.m_modelAssetId = asset then
    let calls := [ModelCall.SetTargetBounds (getAabb asset)]
    let calls := calls ++ [ModelCall.Reset]
    ({ w with assetBusConnected := busDisconnect asset w.assetBusConnected }, calls)
  else
    (w, [])

/-! ## Lighting presets -/

/-- The members of the widget that `ApplyLightingPreset` may rewrite: the directional
light handles. -/
structure LightingMembers where
  m_lightHandles : List Nat
deriving DecidableEq, Repr

/-- The request made by `OnLightingPresetSelected`: `preset->ApplyLightingPreset(...)`
with the camera configuration, the shadow-catcher material and opacity index, and the
alternate-skybox flag that were passed. -/
inductive LightingCall where
  | ApplyLightingPreset (preset : PresetAddr) (cameraConfig : Nat)
      (shadowCatcherMaterial : Option MaterialRef)
      (shadowCatcherOpacityPropertyIndex : MaterialPropertyIndex)
      (enableAlternateSkybox : Bool)
deriving DecidableEq, Repr

/-- The engine state read by `OnLightingPresetSelected` and the effect of
`ApplyLightingPreset` on the light handles it is given by reference. -/
structure LightingServices where
  cameraConfiguration : Nat
  alternateSkyboxEnabled : Bool
  applyToLightHandles : PresetAddr → List Nat → List Nat

/-- The handler `MaterialViewportWidget::OnLightingPresetSelected(preset)`; `preset` is
`none` for a null pointer. -/
def OnLightingPresetSelected (services : LightingServices) (shadow : ShadowCatcherMembers)
    (preset : Option PresetAddr) (w : LightingMembers) : LightingMembers × List LightingCall :=
  match preset with
  | none => (w, [])
  | some addr =>
    let cameraConfig := services.cameraConfiguration
    let enableAlternateSkybox := services.alternateSkyboxEnabled
    ({ w with m_lightHandles := services.applyToLightHandles addr w.m_lightHandles },
      [LightingCall.ApplyLightingPreset addr cameraConfig shadow.m_shadowCatcherMaterial
        shadow.m_shadowCatcherOpacityPropertyIndex enableAlternateSkybox])

/-- The handler `MaterialViewportWidget::OnLightingPresetChanged(preset)`.  `selection` is
the answer to the `GetLightingPresetSelection` request (`none` for a null pointer). -/
def OnLightingPresetChanged (services : LightingServices) (shadow : ShadowCatcherMembers)
    (selection : Option PresetAddr) (preset : Option PresetAddr) (w : LightingMembers) :
    LightingMembers × List LightingCall :=
  let selectedPreset := selection
  if selectedPreset = preset then
    OnLightingPresetSelected services shadow preset w
  else
    (w, [])

/-! ## The grid entity -/

/-- The states of an entity (`AZ::Entity::State`); the widget tests for `Init` and
`Active`. -/
inductive EntityState where
  | Constructed
  | Initializing
  | Init
  | Activating
  | Active
  | Deactivating
  | Destroying
  | Destroyed
deriving DecidableEq, Repr

/-- The calls `OnGridEnabledChanged` makes on the grid entity. -/
inductive GridCall where
  | Activate
  | Deactivate
deriving DecidableEq, Repr

/-- The handler `MaterialViewportWidget::OnGridEnabledChanged(enable)`.  `gridEntity` is
the state of `m_gridEntity` (`none` for a null pointer); `activate` and `deactivate` are
the state changes made by `Entity::Activate` and `Entity::Deactivate`. -/
def OnGridEnabledChanged (activate deactivate : EntityState → EntityState) (enable : Bool)
    (gridEntity : Option EntityState) : Option EntityState × List GridCall :=
  match gridEntity with
  | some state =>
    if enable && state == EntityState.Init then
      (some (activate state), [GridCall.Activate])
    else if !enable && state == EntityState.Active then
      (some (deactivate state), [GridCall.Deactivate])
    else
      (gridEntity, [])
  | none => (gridEntity, [])

/-- The state change of `Entity::Activate` used in concrete evaluations: `Init` becomes
`Active`. -/
def sampleActivate : EntityState → EntityState
  | EntityState.Init => EntityState.Active
  | other => other

/-- The state change of `Entity::Deactivate` used in concrete evaluations: `Active`
becomes `Init`. -/
def sampleDeactivate : EntityState → EntityState
  | EntityState.Active => EntityState.Init
  | other => other

/-- Sample presets for concrete evaluations: address 1 holds a preset with model asset 30,
address 2 one with model asset 31, every other address one with the invalid asset 0. -/
def samplePresets (addr : PresetAddr) : ModelPreset :=
  if addr = 1 then { m_displayName := "Shader Ball", m_modelAsset := 30 }
  else if addr = 2 then { m_displayName := "Cube", m_modelAsset := 31 }
  else { m_displayName := "Broken", m_modelAsset := 0 }

/-- Sample validity test for concrete evaluations: the id 0 is the invalid asset id. -/
def sampleIsValid (id : AssetId) : Bool := id != 0

/-- Sample lighting services for concrete evaluations: applying a preset replaces the
light handles by the single handle numbered like the preset. -/
def sampleLighting : LightingServices :=
  { cameraConfiguration := 9
    alternateSkyboxEnabled := false
    applyToLightHandles := fun addr _ => [addr] }

/-! ## Registry lemmas -/

theorem lookupBehavior_removeKey_ne (reg : BehaviorMap) (c c' : KeyMask) (h : c' ≠ c) :
    lookupBehavior (removeKey reg c) c' = lookupBehavior reg c' := by
  induction reg with
  | nil => rfl
  | cons e rest ih =>
    obtain ⟨key, b⟩ := e
    by_cases hk : key = c
    · subst hk
      have hne : ¬ key = c' := fun h' => h h'.symm
      simp [removeKey, lookupBehavior, hne, ih]
    · by_cases hc : key = c'
      · subst hc
        simp [removeKey, lookupBehavior, hk]
      · simp [removeKey, lookupBehavior, hk, hc, ih]

theorem lookupBehavior_removeKey_self (reg : BehaviorMap) (c : KeyMask) :
    lookupBehavior (removeKey reg c) c = none := by
  induction reg with
  | nil => rfl
  | cons e rest ih =>
    obtain ⟨key, b⟩ := e
    by_cases hk : key = c
    · simp [removeKey, hk, ih]
    · simp [removeKey, lookupBehavior, hk, ih]

theorem lookupBehavior_AddBehavior_same (reg : BehaviorMap) (c : KeyMask) (b : Behavior) :
    lookupBehavior (AddBehavior reg c b) c = some b := by
  simp [AddBehavior, lookupBehavior]

theorem lookupBehavior_AddBehavior_other (reg : BehaviorMap) (c c' : KeyMask) (b : Behavior)
    (h : c' ≠ c) : lookupBehavior (AddBehavior reg c b) c' = lookupBehavior reg c' := by
  have hne : ¬ c = c' := fun h' => h h'.symm
  simp [AddBehavior, lookupBehavior, hne, lookupBehavior_removeKey_ne reg c c' h]

theorem lookupBehavior_foldl (calls : List (KeyMask × Behavior)) (reg : BehaviorMap)
    (c : KeyMask) :
    lookupBehavior (calls.foldl (fun reg e => AddBehavior reg e.1 e.2) reg) c =
      match lastRegistration calls c with
      | some b => some b
      | none => lookupBehavior reg c := by
  induction calls generalizing reg with
  | nil => rfl
  | cons e rest ih =>
    obtain ⟨key, b⟩ := e
    rw [List.foldl_cons, ih]
    simp only [lastRegistration]
    cases lastRegistration rest c with
    | some later => rfl
    | none =>
      by_cases hk : key = c
      · subst hk
        simp [lookupBehavior_AddBehavior_same]
      · have hne : c ≠ key := fun h' => hk h'.symm
        simp [hk, lookupBehavior_AddBehavior_other reg key c b hne]

theorem lookupBehavior_registerAll (calls : List (KeyMask × Behavior)) (c : KeyMask) :
    lookupBehavior (registerAll calls) c = lastRegistration calls c := by
  unfold registerAll
  rw [lookupBehavior_foldl]
  cases lastRegistration calls c <;> rfl

theorem removeKey_of_not_mem (reg : BehaviorMap) (c : KeyMask)
    (h : c ∉ reg.map Prod.fst) : removeKey reg c = reg := by
  induction reg with
  | nil => rfl
  | cons e rest ih =>
    obtain ⟨key, b⟩ := e
    simp only [List.map_cons, List.mem_cons, not_or] at h
    have hk : ¬ key = c := fun h' => h.1 h'.symm
    simp [removeKey, hk, ih h.2]

theorem foldl_AddBehavior_of_nodup (calls : List (KeyMask × Behavior)) (reg : BehaviorMap)
    (hnodup : (calls.map Prod.fst).Nodup)
    (hfresh : ∀ c ∈ calls.map Prod.fst, c ∉ reg.map Prod.fst) :
    calls.foldl (fun reg e => AddBehavior reg e.1 e.2) reg = calls.reverse ++ reg := by
  induction calls generalizing reg with
  | nil => rfl
  | cons e rest ih =>
    obtain ⟨key, b⟩ := e
    simp only [List.map_cons, List.nodup_cons] at hnodup
    have hkey : key ∉ reg.map Prod.fst := hfresh key (by simp)
    have hstep : AddBehavior reg key b = (key, b) :: reg := by
      simp [AddBehavior, removeKey_of_not_mem reg key hkey]
    rw [List.foldl_cons]
    show List.foldl _ (AddBehavior reg key b) rest = _
    rw [hstep, ih _ hnodup.2]
    · simp
    · intro c hc
      simp only [List.map_cons, List.mem_cons, not_or]
      refine ⟨?_, hfresh c (by simp [List.mem_map] at hc ⊢; exact Or.inr hc)⟩
      intro hck
      exact hnodup.1 (hck ▸ hc)

theorem registerAll_of_nodup (calls : List (KeyMask × Behavior))
    (hnodup : (calls.map Prod.fst).Nodup) : registerAll calls = calls.reverse := by
  unfold registerAll
  rw [foldl_AddBehavior_of_nodup calls [] hnodup (by simp)]
  simp

theorem lastRegistration_none_of_not_mem (calls : List (KeyMask × Behavior)) (c : KeyMask)
    (h : c ∉ calls.map Prod.fst) : lastRegistration calls c = none := by
  induction calls with
  | nil => rfl
  | cons e rest ih =>
    obtain ⟨key, b⟩ := e
    simp only [List.map_cons, List.mem_cons, not_or] at h
    have hk : ¬ key = c := fun h' => h.1 h'.symm
    simp [lastRegistration, ih h.2, hk]

theorem lastRegistration_eq_some_iff (calls : List (KeyMask × Behavior))
    (hnodup : (calls.map Prod.fst).Nodup) (c : KeyMask) (b : Behavior) :
    lastRegistration calls c = some b ↔ (c, b) ∈ calls := by
  induction calls with
  | nil => simp [lastRegistration]
  | cons e rest ih =>
    obtain ⟨key, b0⟩ := e
    simp only [List.map_cons, List.nodup_cons] at hnodup
    have ih := ih hnodup.2
    by_cases hk : key = c
    · subst hk
      have hnone := lastRegistration_none_of_not_mem rest key hnodup.1
      have hnot : (key, b) ∉ rest := fun hm => hnodup.1 (List.mem_map_of_mem Prod.fst hm)
      simp only [lastRegistration, hnone, if_true, List.mem_cons, Prod.mk.injEq, true_and]
      constructor
      · intro h
        exact Or.inl (Option.some.inj h).symm
      · rintro (h | h)
        · rw [h]
        · exact absurd h hnot
    · have hne : ¬ c = key := fun h' => hk h'.symm
      simp only [lastRegistration, hk, if_false, List.mem_cons, Prod.mk.injEq, hne, false_and,
        false_or]
      rw [← ih]
      cases lastRegistration rest c <;> simp

theorem lastRegistration_perm (calls calls' : List (KeyMask × Behavior))
    (hperm : calls.Perm calls') (hnodup : (calls.map Prod.fst).Nodup) (c : KeyMask) :
    lastRegistration calls c = lastRegistration calls' c := by
  have hnodup' : (calls'.map Prod.fst).Nodup := (hperm.map Prod.fst).nodup_iff.mp hnodup
  apply Option.ext
  intro b
  simp only [Option.mem_def]
  rw [lastRegistration_eq_some_iff calls hnodup, lastRegistration_eq_some_iff calls' hnodup']
  exact hperm.mem_iff

/-! ## Key-mask lemmas -/

theorem two_pow_xor_eq_or (a b : Nat) (h : a ≠ b) : 2 ^ a ^^^ 2 ^ b = 2 ^ a ||| 2 ^ b := by
  apply Nat.eq_of_testBit_eq
  intro i
  simp only [Nat.testBit_xor, Nat.testBit_or, Nat.testBit_two_pow]
  by_cases ha : a = i
  · have hb : ¬ b = i := fun hb => h (ha.trans hb.symm)
    simp [ha, hb]
  · simp [ha]

theorem Keys.WellFormed.exponents (k : Keys) (h : k.WellFormed) :
    ∃ l m r a c s, k = Keys.mk 0 (2 ^ l) (2 ^ m) (2 ^ r) (2 ^ a) (2 ^ c) (2 ^ s) ∧
      [l, m, r, a, c, s].Nodup := by
  obtain ⟨kn, kl, km, kr, ka, kc, ks⟩ := k
  obtain ⟨hnone, hbits, hnodup⟩ := h
  simp only [Keys.flags] at hbits hnodup
  obtain ⟨l, -, hl⟩ := hbits kl (by simp)
  obtain ⟨m, -, hm⟩ := hbits km (by simp)
  obtain ⟨r, -, hr⟩ := hbits kr (by simp)
  obtain ⟨a, -, ha⟩ := hbits ka (by simp)
  obtain ⟨c, -, hc⟩ := hbits kc (by simp)
  obtain ⟨s, -, hs⟩ := hbits ks (by simp)
  simp only at hnone
  subst hnone hl hm hr ha hc hs
  refine ⟨l, m, r, a, c, s, rfl, ?_⟩
  have hinj : ∀ x y : Nat, 2 ^ x ≠ 2 ^ y → x ≠ y := fun x y hne hxy => hne (by rw [hxy])
  simp only [List.nodup_cons, List.mem_cons, List.mem_singleton, not_or, List.not_mem_nil,
    not_false_eq_true, List.nodup_nil, and_true] at hnodup ⊢
  obtain ⟨⟨h1, h2, h3, h4, h5⟩, ⟨h6, h7, h8, h9⟩, ⟨h10, h11, h12⟩, ⟨h13, h14⟩, h15⟩ := hnodup
  exact ⟨⟨hinj _ _ h1, hinj _ _ h2, hinj _ _ h3, hinj _ _ h4, hinj _ _ h5⟩,
    ⟨hinj _ _ h6, hinj _ _ h7, hinj _ _ h8, hinj _ _ h9⟩,
    ⟨hinj _ _ h10, hinj _ _ h11, hinj _ _ h12⟩, ⟨hinj _ _ h13, hinj _ _ h14⟩, hinj _ _ h15⟩

theorem setupRegistrations_keys_nodup (k : Keys) (h : k.WellFormed) :
    ((setupRegistrations k).map Prod.fst).Nodup := by
  obtain ⟨l, m, r, a, c, s, rfl, hnodup⟩ := Keys.WellFormed.exponents k h
  simp only [List.nodup_cons, List.mem_cons, List.mem_singleton, not_or, List.not_mem_nil,
    not_false_eq_true, List.nodup_nil, and_true] at hnodup
  obtain ⟨⟨h1, h2, h3, h4, h5⟩, ⟨h6, h7, h8, h9⟩, ⟨h10, h11, h12⟩, ⟨h13, h14⟩, h15⟩ := hnodup
  apply List.Nodup.of_map (bitsAt l m r a c s)
  have hsig : ((setupRegistrations
      (Keys.mk 0 (2 ^ l) (2 ^ m) (2 ^ r) (2 ^ a) (2 ^ c) (2 ^ s))).map Prod.fst).map
        (bitsAt l m r a c s) =
      [ [false, false, false, false, false, false],
        [true, false, false, false, false, false],
        [false, true, false, false, false, false],
        [false, false, true, false, false, false],
        [true, false, false, true, false, false],
        [false, true, false, true, false, false],
        [false, false, true, true, false, false],
        [true, false, true, false, false, false],
        [true, false, false, false, true, false],
        [true, false, false, false, false, true] ] := by
    simp [setupRegistrations, bitsAt, Nat.testBit_xor, Nat.testBit_two_pow,
      h1, h2, h3, h4, h5, h6, h7, h8, h9, h10, h11, h12, h13, h14, h15,
      Ne.symm h1, Ne.symm h2, Ne.symm h3, Ne.symm h4, Ne.symm h5, Ne.symm h6, Ne.symm h7,
      Ne.symm h8, Ne.symm h9, Ne.symm h10, Ne.symm h11, Ne.symm h12, Ne.symm h13,
      Ne.symm h14, Ne.symm h15]
  rw [hsig]
  decide

theorem SetupInputController_eq_registerAll (k : Keys) :
    SetupInputController k = registerAll (setupRegistrations k) := rfl

theorem SetupInputController_eq_reverse (k : Keys) (h : k.WellFormed) :
    SetupInputController k = (setupRegistrations k).reverse := by
  rw [SetupInputController_eq_registerAll,
    registerAll_of_nodup _ (setupRegistrations_keys_nodup k h)]

theorem lookupBehavior_none_of_not_mem (reg : BehaviorMap) (c : KeyMask)
    (h : c ∉ reg.map Prod.fst) : lookupBehavior reg c = none := by
  induction reg with
  | nil => rfl
  | cons e rest ih =>
    obtain ⟨key, b⟩ := e
    simp only [List.map_cons, List.mem_cons, not_or] at h
    have hk : ¬ key = c := fun h' => h.1 h'.symm
    simp [lookupBehavior, hk, ih h.2]

theorem removeKey_removeKey (reg : BehaviorMap) (c : KeyMask) :
    removeKey (removeKey reg c) c = removeKey reg c := by
  induction reg with
  | nil => rfl
  | cons e rest ih =>
    obtain ⟨key, b⟩ := e
    by_cases hk : key = c
    · simp [removeKey, hk, ih]
    · simp [removeKey, hk, ih]

theorem Dispatch_of_lookup_some {δ τ : Type}
    (mutate : Behavior → δ → Transforms τ → Transforms τ) (reg : BehaviorMap) (c : KeyMask)
    (b : Behavior) (delta : δ) (s : Transforms τ) (h : lookupBehavior reg c = some b) :
    Dispatch mutate reg c delta s =
      { received := [(b, delta)], transforms := applyBehavior mutate b delta s } := by
  simp [Dispatch, h]

theorem Dispatch_of_lookup_none {δ τ : Type}
    (mutate : Behavior → δ → Transforms τ → Transforms τ) (reg : BehaviorMap) (c : KeyMask)
    (delta : δ) (s : Transforms τ) (h : lookupBehavior reg c = none) :
    Dispatch mutate reg c delta s =
      { received := [(Behavior.Idle, delta)], transforms := s } := by
  simp [Dispatch, h, applyBehavior]

theorem Dispatch_congr {δ τ : Type}
    (mutate : Behavior → δ → Transforms τ → Transforms τ) (reg reg' : BehaviorMap)
    (c : KeyMask) (delta : δ) (s : Transforms τ)
    (h : lookupBehavior reg c = lookupBehavior reg' c) :
    Dispatch mutate reg c delta s = Dispatch mutate reg' c delta s := by
  simp [Dispatch, h]

theorem Keys.WellFormed.lmb_ne_rmb (k : Keys) (h : k.WellFormed) :
    k.Lmb ≠ k.Rmb ∧ k.Mmb ≠ k.Lmb ∧ k.Mmb ≠ k.Rmb := by
  obtain ⟨-, -, hnodup⟩ := h
  simp only [Keys.flags, List.nodup_cons, List.mem_cons, List.mem_singleton, not_or] at hnodup
  exact ⟨hnodup.1.2.1, fun h' => hnodup.1.1 h'.symm, hnodup.2.1.1⟩

theorem lookupBehavior_SetupInputController_iff (k : Keys) (h : k.WellFormed) (c : KeyMask)
    (b : Behavior) :
    lookupBehavior (SetupInputController k) c = some b ↔ (c, b) ∈ setupRegistrations k := by
  rw [SetupInputController_eq_registerAll, lookupBehavior_registerAll]
  exact lastRegistration_eq_some_iff _ (setupRegistrations_keys_nodup k h) c b

theorem Keys.WellFormed.xor_eq_or (k : Keys) (h : k.WellFormed) :
    k.Alt ^^^ k.Lmb = k.Alt ||| k.Lmb ∧ k.Alt ^^^ k.Mmb = k.Alt ||| k.Mmb ∧
    k.Alt ^^^ k.Rmb = k.Alt ||| k.Rmb ∧ k.Lmb ^^^ k.Rmb = k.Lmb ||| k.Rmb ∧
    k.Ctrl ^^^ k.Lmb = k.Ctrl ||| k.Lmb ∧ k.Shift ^^^ k.Lmb = k.Shift ||| k.Lmb := by
  obtain ⟨l, m, r, a, c, s, rfl, hnodup⟩ := Keys.WellFormed.exponents k h
  simp only [List.nodup_cons, List.mem_cons, List.mem_singleton, not_or, List.not_mem_nil,
    not_false_eq_true, List.nodup_nil, and_true] at hnodup
  obtain ⟨⟨h1, h2, h3, h4, h5⟩, ⟨h6, h7, h8, h9⟩, ⟨h10, h11, h12⟩, ⟨h13, h14⟩, h15⟩ := hnodup
  exact ⟨two_pow_xor_eq_or a l (Ne.symm h3), two_pow_xor_eq_or a m (Ne.symm h7),
    two_pow_xor_eq_or a r (Ne.symm h10), two_pow_xor_eq_or l r h2,
    two_pow_xor_eq_or c l (Ne.symm h4), two_pow_xor_eq_or s l (Ne.symm h5)⟩

theorem createComponents_eq (entity : EntityRef) (ids : List Uuid) (calls : List EntityCall) :
    createComponents entity ids calls =
      calls ++ ids.map (EntityCall.CreateComponent entity) := by
  induction ids generalizing calls with
  | nil => simp [createComponents]
  | cons t rest ih => simp [createComponents, ih]

theorem OnTick_members (w : ShadowCatcherMembers) : (OnTick w).1 = w := by
  unfold OnTick
  cases w.m_shadowCatcherMaterial <;> rfl

theorem runTicks_eq (n : Nat) (w : ShadowCatcherMembers) :
    runTicks n w = (w, List.replicate n (OnTick w).2) := by
  induction n generalizing w with
  | zero => rfl
  | succ n ih =>
    have h1 : runTicks (n + 1) w =
        ((runTicks n (OnTick w).1).1, (OnTick w).2 :: (runTicks n (OnTick w).1).2) := rfl
    rw [h1, OnTick_members, ih]
    rfl

theorem compileCalls_OnTick_some (w : ShadowCatcherMembers) (material : MaterialRef)
    (h : w.m_shadowCatcherMaterial = some material) :
    (OnTick w).2.filter ViewportCall.isCompile = [ViewportCall.Compile material] := by
  unfold OnTick
  rw [h]
  rfl

theorem compileCalls_OnTick_none (w : ShadowCatcherMembers)
    (h : w.m_shadowCatcherMaterial = none) :
    (OnTick w).2.filter ViewportCall.isCompile = [] := by
  unfold OnTick
  rw [h]
  rfl

/-! ## The behaviour router -/

/-- C1: for every registry built by a sequence of `AddBehavior` calls and every
combination `c` registered to `b` (by the last call naming `c`), `Dispatch` forwards the
delta to `b` and to no other behaviour, and the transforms are those produced by `b`; in
particular with `Lmb -> Pan` and `Rmb -> Orbit` registered, `Lmb` delivers to Pan and
`Rmb` to Orbit. -/
theorem dispatch_registered_exact {δ τ : Type}
    (mutate : Behavior → δ → Transforms τ → Transforms τ)
    (calls : List (KeyMask × Behavior)) (c : KeyMask) (b : Behavior) (delta : δ)
    (s : Transforms τ) (h : lastRegistration calls c = some b) :
    (Dispatch mutate (registerAll calls) c delta s).received = [(b, delta)] ∧
    (∀ b' d, (b', d) ∈ (Dispatch mutate (registerAll calls) c delta s).received ↔
      b' = b ∧ d = delta) ∧
    (Dispatch mutate (registerAll calls) c delta s).transforms =
      applyBehavior mutate b delta s ∧
    (∀ k : Keys, k.WellFormed →
      (Dispatch mutate (AddBehavior (AddBehavior [] k.Lmb Behavior.PanCamera) k.Rmb
        Behavior.OrbitCamera) k.Lmb delta s).received = [(Behavior.PanCamera, delta)] ∧
      (Dispatch mutate (AddBehavior (AddBehavior [] k.Lmb Behavior.PanCamera) k.Rmb
        Behavior.OrbitCamera) k.Rmb delta s).received = [(Behavior.OrbitCamera, delta)]) := by
  have hlook : lookupBehavior (registerAll calls) c = some b := by
    rw [lookupBehavior_registerAll, h]
  rw [Dispatch_of_lookup_some mutate _ c b delta s hlook]
  refine ⟨rfl, ?_, rfl, ?_⟩
  · intro b' d
    simp
  · intro k hk
    have hne := (Keys.WellFormed.lmb_ne_rmb k hk).1
    constructor
    · rw [Dispatch_of_lookup_some mutate _ k.Lmb Behavior.PanCamera delta s]
      rw [lookupBehavior_AddBehavior_other _ _ _ _ hne, lookupBehavior_AddBehavior_same]
    · rw [Dispatch_of_lookup_some mutate _ k.Rmb Behavior.OrbitCamera delta s]
      exact lookupBehavior_AddBehavior_same _ _ _

/-- Witness of C1: `Lmb -> Pan`, `Rmb -> Orbit` on consecutive bits, dispatching `Lmb`. -/
theorem dispatch_registered_exact_witness :
    lastRegistration [(1, Behavior.PanCamera), (4, Behavior.OrbitCamera)] 1 =
        some Behavior.PanCamera ∧
      (Dispatch shiftCamera
        (registerAll [(1, Behavior.PanCamera), (4, Behavior.OrbitCamera)]) 1 (3, -2)
        sampleTransforms).received = [(Behavior.PanCamera, (3, -2))] :=
  ⟨by decide,
    (dispatch_registered_exact shiftCamera [(1, Behavior.PanCamera), (4, Behavior.OrbitCamera)] 1
      Behavior.PanCamera (3, -2) sampleTransforms (by decide)).1⟩

/-- C2: for every registry and every combination `c` that has no entry, `Dispatch` yields
an outcome in which `Idle` alone receives the delta and the camera and target transforms
are unchanged; the same holds for a registry built by `AddBehavior` calls none of which
names `c`, e.g. for `Mmb` when only `Lmb -> Pan` and `Rmb -> Orbit` are registered. -/
theorem dispatch_unregistered_idle {δ τ : Type}
    (mutate : Behavior → δ → Transforms τ → Transforms τ) (reg : BehaviorMap) (c : KeyMask)
    (delta : δ) (s : Transforms τ) (h : c ∉ reg.map Prod.fst) :
    Dispatch mutate reg c delta s =
      { received := [(Behavior.Idle, delta)], transforms := s } ∧
    (∀ calls : List (KeyMask × Behavior), c ∉ calls.map Prod.fst →
      Dispatch mutate (registerAll calls) c delta s =
        { received := [(Behavior.Idle, delta)], transforms := s }) ∧
    (∀ k : Keys, k.WellFormed →
      Dispatch mutate (AddBehavior (AddBehavior [] k.Lmb Behavior.PanCamera) k.Rmb
        Behavior.OrbitCamera) k.Mmb delta s =
        { received := [(Behavior.Idle, delta)], transforms := s }) := by
  refine ⟨?_, ?_, ?_⟩
  · exact Dispatch_of_lookup_none mutate reg c delta s (lookupBehavior_none_of_not_mem reg c h)
  · intro calls hc
    apply Dispatch_of_lookup_none
    rw [lookupBehavior_registerAll]
    exact lastRegistration_none_of_not_mem calls c hc
  · intro k hk
    obtain ⟨-, h1, h2⟩ := Keys.WellFormed.lmb_ne_rmb k hk
    apply Dispatch_of_lookup_none
    rw [lookupBehavior_AddBehavior_other _ _ _ _ h2, lookupBehavior_AddBehavior_other _ _ _ _ h1]
    rfl

/-- Witness of C2: the registry of `SetupInputController` on consecutive bits has no entry
for `Mmb + Rmb`; the camera shift is not applied. -/
theorem dispatch_unregistered_idle_witness :
    (6 ∉ (SetupInputController consecutiveKeys).map Prod.fst) ∧
      Dispatch shiftCamera
        (SetupInputController consecutiveKeys) 6 (3, -2)
        sampleTransforms =
        { received := [(Behavior.Idle, (3, -2))],
          transforms := sampleTransforms } :=
  ⟨by decide,
    (dispatch_unregistered_idle shiftCamera (SetupInputController consecutiveKeys) 6 (3, -2)
      sampleTransforms (by decide)).1⟩

/-- C3: registering a combination twice replaces the first registration: after
`AddBehavior(c, b1)` then `AddBehavior(c, b2)` the registry is the one obtained by
registering `b2` alone, `Dispatch` at `c` forwards the delta to `b2` and to nothing else
(so not to `b1` when `b1` is another behaviour), and the dispatch result of every other
combination is what it was before either registration and after the first. -/
theorem AddBehavior_twice_replaces {δ τ : Type}
    (mutate : Behavior → δ → Transforms τ → Transforms τ) (reg : BehaviorMap) (c : KeyMask)
    (b1 b2 : Behavior) (delta : δ) (s : Transforms τ) :
    AddBehavior (AddBehavior reg c b1) c b2 = AddBehavior reg c b2 ∧
    (Dispatch mutate (AddBehavior (AddBehavior reg c b1) c b2) c delta s).received =
      [(b2, delta)] ∧
    (Dispatch mutate (AddBehavior (AddBehavior reg c b1) c b2) c delta s).transforms =
      applyBehavior mutate b2 delta s ∧
    (b1 ≠ b2 → ∀ d,
      (b1, d) ∉ (Dispatch mutate (AddBehavior (AddBehavior reg c b1) c b2) c delta s).received) ∧
    (∀ c', c' ≠ c →
      Dispatch mutate (AddBehavior (AddBehavior reg c b1) c b2) c' delta s =
        Dispatch mutate reg c' delta s ∧
      Dispatch mutate (AddBehavior (AddBehavior reg c b1) c b2) c' delta s =
        Dispatch mutate (AddBehavior reg c b1) c' delta s) := by
  have hlook : lookupBehavior (AddBehavior (AddBehavior reg c b1) c b2) c = some b2 :=
    lookupBehavior_AddBehavior_same _ _ _
  rw [Dispatch_of_lookup_some mutate _ c b2 delta s hlook]
  refine ⟨?_, rfl, rfl, ?_, ?_⟩
  · simp [AddBehavior, removeKey, removeKey_removeKey]
  · intro hne d
    simp [hne]
  · intro c' hc'
    constructor
    · apply Dispatch_congr
      rw [lookupBehavior_AddBehavior_other _ _ _ _ hc', lookupBehavior_AddBehavior_other _ _ _ _ hc']
    · apply Dispatch_congr
      rw [lookupBehavior_AddBehavior_other _ _ _ _ hc']

/-- Witness of C3: on the registry of `SetupInputController`, `Lmb` is registered again,
first to Orbit and then to Dolly; Orbit does not receive the delta at `Lmb` and `Rmb` is
dispatched as before. -/
theorem AddBehavior_twice_replaces_witness :
    (∀ d : Int × Int, (Behavior.OrbitCamera, d) ∉
      (Dispatch shiftCamera
        (AddBehavior (AddBehavior (SetupInputController consecutiveKeys) 1
          Behavior.OrbitCamera) 1 Behavior.DollyCamera) 1 (3, -2)
        sampleTransforms).received) ∧
    (Dispatch shiftCamera
        (AddBehavior (AddBehavior (SetupInputController consecutiveKeys) 1
          Behavior.OrbitCamera) 1 Behavior.DollyCamera) 4 (3, -2)
        sampleTransforms =
      Dispatch shiftCamera
        (SetupInputController consecutiveKeys) 4 (3, -2)
        sampleTransforms) :=
  ⟨(AddBehavior_twice_replaces shiftCamera (SetupInputController consecutiveKeys) 1
      Behavior.OrbitCamera Behavior.DollyCamera (3, -2)
      sampleTransforms).2.2.2.1 (by decide),
    ((AddBehavior_twice_replaces shiftCamera (SetupInputController consecutiveKeys) 1
      Behavior.OrbitCamera Behavior.DollyCamera (3, -2)
      sampleTransforms).2.2.2.2 4 (by decide)).1⟩

/-- C4: dispatch resolves by exact mask equality only.  A combination `c` that is a strict
superset or subset of a registered key `c'` but has no entry of its own does not resolve
to the entry of `c'`: it is handled by `Idle` alone with the transforms unchanged, so the
behaviour `b` of the overlapping key does not receive the delta (unless that key is
itself registered to `Idle`); and in the
registry of `SetupInputController` the key `Alt ^ Lmb` differs from `Lmb` and selects
Orbit where `Lmb` selects Pan. -/
theorem dispatch_exact_mask_only {δ τ : Type}
    (mutate : Behavior → δ → Transforms τ → Transforms τ) (reg : BehaviorMap)
    (c c' : KeyMask) (b : Behavior) (delta : δ) (s : Transforms τ)
    (hreg : lookupBehavior reg c' = some b) (hne : c ≠ c')
    (hoverlap : c &&& c' = c' ∨ c &&& c' = c) (hun : c ∉ reg.map Prod.fst) :
    Dispatch mutate reg c delta s =
      { received := [(Behavior.Idle, delta)], transforms := s } ∧
    lookupBehavior reg c ≠ lookupBehavior reg c' ∧
    (b ≠ Behavior.Idle → ∀ d, (b, d) ∉ (Dispatch mutate reg c delta s).received) ∧
    (∀ k : Keys, k.WellFormed →
      k.Alt ^^^ k.Lmb ≠ k.Lmb ∧
      lookupBehavior (SetupInputController k) (k.Alt ^^^ k.Lmb) = some Behavior.OrbitCamera ∧
      lookupBehavior (SetupInputController k) k.Lmb = some Behavior.PanCamera ∧
      (Dispatch mutate (SetupInputController k) (k.Alt ^^^ k.Lmb) delta s).received =
        [(Behavior.OrbitCamera, delta)] ∧
      (Dispatch mutate (SetupInputController k) k.Lmb delta s).received =
        [(Behavior.PanCamera, delta)]) := by
  have hidle := Dispatch_of_lookup_none mutate reg c delta s
    (lookupBehavior_none_of_not_mem reg c hun)
  refine ⟨hidle, ?_, ?_, ?_⟩
  · rw [lookupBehavior_none_of_not_mem reg c hun, hreg]
    exact Option.noConfusion
  · intro hb d
    rw [hidle]
    simp [hb]
  · intro k hk
    have horbit : lookupBehavior (SetupInputController k) (k.Alt ^^^ k.Lmb) =
        some Behavior.OrbitCamera :=
      (lookupBehavior_SetupInputController_iff k hk _ _).mpr (by simp [setupRegistrations])
    have hpan : lookupBehavior (SetupInputController k) k.Lmb = some Behavior.PanCamera :=
      (lookupBehavior_SetupInputController_iff k hk _ _).mpr (by simp [setupRegistrations])
    refine ⟨?_, horbit, hpan, ?_, ?_⟩
    · intro heq
      rw [heq, hpan] at horbit
      exact absurd horbit (by decide)
    · rw [Dispatch_of_lookup_some mutate _ _ _ delta s horbit]
    · rw [Dispatch_of_lookup_some mutate _ _ _ delta s hpan]

/-- Witness of C4: in the registry of `SetupInputController` on consecutive bits,
`Alt + Ctrl + Lmb` (25) is a strict superset of the key `Lmb` (1) and `Alt` alone (8) is a
strict subset of the key `Alt ^ Lmb` (9); neither has an entry. -/
theorem dispatch_exact_mask_only_witness :
    (lookupBehavior (SetupInputController consecutiveKeys) 1 = some Behavior.PanCamera ∧
      (25 : Nat) &&& 1 = 1 ∧
      Dispatch shiftCamera (SetupInputController consecutiveKeys) 25 (3, -2) sampleTransforms =
        { received := [(Behavior.Idle, (3, -2))], transforms := sampleTransforms }) ∧
    (lookupBehavior (SetupInputController consecutiveKeys) 9 = some Behavior.OrbitCamera ∧
      (8 : Nat) &&& 9 = 8 ∧
      ∀ d, (Behavior.OrbitCamera, d) ∉
        (Dispatch shiftCamera (SetupInputController consecutiveKeys) 8 (3, -2)
          sampleTransforms).received) :=
  ⟨⟨by decide, by decide,
      (dispatch_exact_mask_only shiftCamera (SetupInputController consecutiveKeys) 25 1
        Behavior.PanCamera (3, -2) sampleTransforms (by decide) (by decide)
        (Or.inl (by decide)) (by decide)).1⟩,
    ⟨by decide, by decide,
      (dispatch_exact_mask_only shiftCamera (SetupInputController consecutiveKeys) 8 9
        Behavior.OrbitCamera (3, -2) sampleTransforms (by decide) (by decide)
        (Or.inr (by decide)) (by decide)).2.2.1 (by decide)⟩⟩

/-- C5: insertion order is irrelevant.  For registrations with pairwise distinct
combinations, every permutation of the `AddBehavior` calls yields a registry with the
same `Dispatch` result for every combination; in particular every reordering of the ten
calls of `SetupInputController` dispatches as `SetupInputController` does. -/
theorem dispatch_perm_invariant {δ τ : Type}
    (mutate : Behavior → δ → Transforms τ → Transforms τ)
    (calls calls' : List (KeyMask × Behavior)) (hperm : calls.Perm calls')
    (hnodup : (calls.map Prod.fst).Nodup) :
    (∀ c delta s, Dispatch mutate (registerAll calls') c delta s =
      Dispatch mutate (registerAll calls) c delta s) ∧
    (∀ k : Keys, k.WellFormed → ∀ reordered, (setupRegistrations k).Perm reordered →
      ∀ c delta s, Dispatch mutate (registerAll reordered) c delta s =
        Dispatch mutate (SetupInputController k) c delta s) := by
  constructor
  · intro c delta s
    apply Dispatch_congr
    rw [lookupBehavior_registerAll, lookupBehavior_registerAll]
    exact (lastRegistration_perm calls calls' hperm hnodup c).symm
  · intro k hk reordered hre c delta s
    apply Dispatch_congr
    rw [SetupInputController_eq_registerAll, lookupBehavior_registerAll,
      lookupBehavior_registerAll]
    exact (lastRegistration_perm _ reordered hre (setupRegistrations_keys_nodup k hk) c).symm

/-- Witness of C5: the ten calls of `SetupInputController` on consecutive bits, made in
reverse order. -/
theorem dispatch_perm_invariant_witness :
    ((setupRegistrations consecutiveKeys).map Prod.fst).Nodup ∧
    ∀ c delta s,
      Dispatch shiftCamera (registerAll (setupRegistrations consecutiveKeys).reverse) c delta s =
        Dispatch shiftCamera (registerAll (setupRegistrations consecutiveKeys)) c delta s :=
  ⟨by decide,
    (dispatch_perm_invariant shiftCamera (setupRegistrations consecutiveKeys)
      (setupRegistrations consecutiveKeys).reverse
      (List.reverse_perm (setupRegistrations consecutiveKeys)).symm (by decide)).1⟩

/-- C6: an input combination is the bitwise union of its flags.  When `None` is `0` and
the six flags are distinct single bits, each key that `SetupInputController` builds with
`^` equals the bitwise OR of the same two flags, so the ten keys it registers are the
union masks. -/
theorem setup_keys_are_unions (k : Keys) (h : k.WellFormed) :
    (k.Alt ^^^ k.Lmb = k.Alt ||| k.Lmb ∧ k.Alt ^^^ k.Mmb = k.Alt ||| k.Mmb ∧
      k.Alt ^^^ k.Rmb = k.Alt ||| k.Rmb ∧ k.Lmb ^^^ k.Rmb = k.Lmb ||| k.Rmb ∧
      k.Ctrl ^^^ k.Lmb = k.Ctrl ||| k.Lmb ∧ k.Shift ^^^ k.Lmb = k.Shift ||| k.Lmb) ∧
    (setupRegistrations k).map Prod.fst =
      [k.None, k.Lmb, k.Mmb, k.Rmb, k.Alt ||| k.Lmb, k.Alt ||| k.Mmb, k.Alt ||| k.Rmb,
        k.Lmb ||| k.Rmb, k.Ctrl ||| k.Lmb, k.Shift ||| k.Lmb] := by
  have hx := Keys.WellFormed.xor_eq_or k h
  refine ⟨hx, ?_⟩
  obtain ⟨h1, h2, h3, h4, h5, h6⟩ := hx
  simp [setupRegistrations, h1, h2, h3, h4, h5, h6]

/-- Witness of C6: the flags on consecutive bits. -/
theorem setup_keys_are_unions_witness :
    consecutiveKeys.WellFormed ∧
    (setupRegistrations consecutiveKeys).map Prod.fst =
      [consecutiveKeys.None, consecutiveKeys.Lmb, consecutiveKeys.Mmb, consecutiveKeys.Rmb,
        consecutiveKeys.Alt ||| consecutiveKeys.Lmb, consecutiveKeys.Alt ||| consecutiveKeys.Mmb,
        consecutiveKeys.Alt ||| consecutiveKeys.Rmb, consecutiveKeys.Lmb ||| consecutiveKeys.Rmb,
        consecutiveKeys.Ctrl ||| consecutiveKeys.Lmb,
        consecutiveKeys.Shift ||| consecutiveKeys.Lmb] :=
  ⟨by decide, (setup_keys_are_unions consecutiveKeys (by decide)).2⟩

/-- C7: duplicate-key replacement is not exercised.  When `None` is `0` and the six flags
are distinct single bits, the ten combinations passed to `AddBehavior` in
`SetupInputController` are pairwise distinct, no call drops an earlier entry (the
registry holds all ten registrations, newest first) and the registry has exactly ten
entries. -/
theorem setup_keys_pairwise_distinct (k : Keys) (h : k.WellFormed) :
    ((setupRegistrations k).map Prod.fst).Pairwise (fun x y => x ≠ y) ∧
    SetupInputController k = (setupRegistrations k).reverse ∧
    (∀ e ∈ setupRegistrations k, e ∈ SetupInputController k) ∧
    (SetupInputController k).length = 10 := by
  have hrev := SetupInputController_eq_reverse k h
  refine ⟨setupRegistrations_keys_nodup k h, hrev, ?_, ?_⟩
  · intro e he
    rw [hrev]
    exact List.mem_reverse.mpr he
  · rw [hrev]
    simp [setupRegistrations]

/-- Witness of C7: the flags on consecutive bits. -/
theorem setup_keys_pairwise_distinct_witness :
    consecutiveKeys.WellFormed ∧ (SetupInputController consecutiveKeys).length = 10 :=
  ⟨by decide, (setup_keys_pairwise_distinct consecutiveKeys (by decide)).2.2.2⟩

/-- C8: the registry built by `SetupInputController` is exactly the table
`None -> Idle`, `Lmb -> PanCamera`, `Mmb -> MoveCamera`, `Rmb -> OrbitCamera`,
`Alt+Lmb -> OrbitCamera`, `Alt+Mmb -> MoveCamera`, `Alt+Rmb -> DollyCamera`,
`Lmb+Rmb -> DollyCamera`, `Ctrl+Lmb -> RotateModel`, `Shift+Lmb -> RotateEnvironment`
(the flags being distinct single bits and `None` being `0`); each of the seven behaviour
variants is selected by at least one combination, and `None` selects `Idle`. -/
theorem SetupInputController_table (k : Keys) (h : k.WellFormed) :
    (∀ c b, lookupBehavior (SetupInputController k) c = some b ↔
      (c, b) ∈ [ (k.None, Behavior.Idle), (k.Lmb, Behavior.PanCamera),
        (k.Mmb, Behavior.MoveCamera), (k.Rmb, Behavior.OrbitCamera),
        (k.Alt ||| k.Lmb, Behavior.OrbitCamera), (k.Alt ||| k.Mmb, Behavior.MoveCamera),
        (k.Alt ||| k.Rmb, Behavior.DollyCamera), (k.Lmb ||| k.Rmb, Behavior.DollyCamera),
        (k.Ctrl ||| k.Lmb, Behavior.RotateModel),
        (k.Shift ||| k.Lmb, Behavior.RotateEnvironment) ]) ∧
    (∀ b : Behavior, ∃ c, lookupBehavior (SetupInputController k) c = some b ∧
      ∀ (δ τ : Type) (mutate : Behavior → δ → Transforms τ → Transforms τ) (delta : δ)
        (s : Transforms τ),
        (Dispatch mutate (SetupInputController k) c delta s).received = [(b, delta)]) ∧
    lookupBehavior (SetupInputController k) k.None = some Behavior.Idle ∧
    (∀ (δ τ : Type) (mutate : Behavior → δ → Transforms τ → Transforms τ) (delta : δ)
      (s : Transforms τ),
      Dispatch mutate (SetupInputController k) k.None delta s =
        { received := [(Behavior.Idle, delta)], transforms := s }) := by
  have hiff := lookupBehavior_SetupInputController_iff k h
  have hmem : ∀ c b, (c, b) ∈ setupRegistrations k →
      lookupBehavior (SetupInputController k) c = some b ∧
      ∀ (δ τ : Type) (mutate : Behavior → δ → Transforms τ → Transforms τ) (delta : δ)
        (s : Transforms τ),
        (Dispatch mutate (SetupInputController k) c delta s).received = [(b, delta)] := by
    intro c b hcb
    have hl := (hiff c b).mpr hcb
    refine ⟨hl, ?_⟩
    intro δ τ mutate delta s
    rw [Dispatch_of_lookup_some mutate _ c b delta s hl]
  have hnone : lookupBehavior (SetupInputController k) k.None = some Behavior.Idle :=
    (hmem _ _ (by simp [setupRegistrations])).1
  refine ⟨?_, ?_, hnone, ?_⟩
  · intro c b
    obtain ⟨h1, h2, h3, h4, h5, h6⟩ := Keys.WellFormed.xor_eq_or k h
    rw [hiff c b, ← h1, ← h2, ← h3, ← h4, ← h5, ← h6]
    rfl
  · intro b
    cases b
    · exact ⟨k.None, hmem _ _ (by simp [setupRegistrations])⟩
    · exact ⟨k.Lmb, hmem _ _ (by simp [setupRegistrations])⟩
    · exact ⟨k.Rmb, hmem _ _ (by simp [setupRegistrations])⟩
    · exact ⟨k.Alt ^^^ k.Rmb, hmem _ _ (by simp [setupRegistrations])⟩
    · exact ⟨k.Mmb, hmem _ _ (by simp [setupRegistrations])⟩
    · exact ⟨k.Ctrl ^^^ k.Lmb, hmem _ _ (by simp [setupRegistrations])⟩
    · exact ⟨k.Shift ^^^ k.Lmb, hmem _ _ (by simp [setupRegistrations])⟩
  · intro δ τ mutate delta s
    rw [Dispatch_of_lookup_some mutate _ _ _ delta s hnone]
    rfl

/-- Witness of C8: with the flags on consecutive bits, `None` (0) selects `Idle`. -/
theorem SetupInputController_table_witness :
    consecutiveKeys.WellFormed ∧
    lookupBehavior (SetupInputController consecutiveKeys) consecutiveKeys.None =
      some Behavior.Idle :=
  ⟨by decide, (SetupInputController_table consecutiveKeys (by decide)).2.2.1⟩

/-! ## Entity creation and the shadow-catcher material -/

/-- C9: with assertions compiled out, a failed entity creation is ignored.  When the
entity context returns no entity, `CreateEntity` returns null and makes no
`CreateComponent`, `Init` or `Activate` call; when it returns an entity, `CreateEntity`
creates one component per element of `componentTypeIds`, in list order, then calls
`Init`, then `Activate`, and returns that entity. -/
theorem CreateEntity_release (contextCreate : String → Option EntityRef) (name : String)
    (componentTypeIds : List Uuid) :
    (contextCreate name = none →
      CreateEntity false contextCreate name componentTypeIds = Except.ok (none, [])) ∧
    (∀ e, contextCreate name = some e →
      CreateEntity false contextCreate name componentTypeIds =
        Except.ok (some e, componentTypeIds.map (EntityCall.CreateComponent e) ++
          [EntityCall.Init e, EntityCall.Activate e])) := by
  constructor
  · intro h
    simp [CreateEntity, h, azAssert]
  · intro e h
    simp [CreateEntity, h, azAssert, createComponents_eq]

/-- Witness of C9: the sample context refuses `"ViewportGrid"` and creates entity 7 for
`"ViewportModel"` with three components. -/
theorem CreateEntity_release_witness :
    CreateEntity false sampleContext "ViewportGrid" [40, 41] = Except.ok (none, []) ∧
    CreateEntity false sampleContext "ViewportModel" [40, 41, 42] =
      Except.ok (some 7, [EntityCall.CreateComponent 7 40, EntityCall.CreateComponent 7 41,
        EntityCall.CreateComponent 7 42, EntityCall.Init 7, EntityCall.Activate 7]) :=
  ⟨(CreateEntity_release sampleContext "ViewportGrid" [40, 41]).1 (by decide),
    (CreateEntity_release sampleContext "ViewportModel" [40, 41, 42]).2 7 (by decide)⟩

/-- C10 as stated fails: the shadow-catcher asset loads but `Material::Create` returns a
null instance (release build); `m_shadowCatcherMaterial` stays null and a tick makes no
`Compile` call, although the `SetMaterialOverrides` request was sent. -/
theorem compile_once_per_tick_counterexample :
    servicesCreateFails.loadShadowCatcherAsset = some 11 ∧
    (setupShadowCatcherMaterial false servicesCreateFails 5 (ShadowCatcherMembers.initial none)).1 =
      { m_shadowCatcherMaterial := none, m_shadowCatcherOpacityPropertyIndex := some 3 } ∧
    (setupShadowCatcherMaterial false servicesCreateFails 5 (ShadowCatcherMembers.initial none)).2 =
      [ViewportCall.SetMaterialOverrides 5 none] ∧
    (OnTick (setupShadowCatcherMaterial false servicesCreateFails 5
      (ShadowCatcherMembers.initial none)).1).2 =
      [ViewportCall.BaseOnTick, ViewportCall.AddToRenderTickOnce] ∧
    compileCalls (OnTick (setupShadowCatcherMaterial false servicesCreateFails 5
      (ShadowCatcherMembers.initial none)).1).2 ≠ 1 := by
  refine ⟨rfl, rfl, rfl, rfl, ?_⟩
  decide

/-- C10, amended: a missing shadow-catcher material asset is ignored.  If loading yields no
asset, the set-up leaves `m_shadowCatcherMaterial` null and the opacity property index at
its default, sends no `SetMaterialOverrides`, and no later tick makes a `Compile` call.  If
the asset loads and `Material::Create` yields a material, every tick makes exactly one
`Compile` call, on that material; if `Material::Create` yields null, no tick makes one. -/
theorem shadow_catcher_material_compile (tracing : Bool) (services : MaterialServices)
    (shadowCatcherEntity : EntityRef) (defaultIndex : MaterialPropertyIndex) :
    (services.loadShadowCatcherAsset = none →
      setupShadowCatcherMaterial tracing services shadowCatcherEntity
        (ShadowCatcherMembers.initial defaultIndex) =
        ({ m_shadowCatcherMaterial := none,
           m_shadowCatcherOpacityPropertyIndex := defaultIndex }, []) ∧
      ∀ n, ∀ calls ∈ (runTicks n (setupShadowCatcherMaterial tracing services shadowCatcherEntity
          (ShadowCatcherMembers.initial defaultIndex)).1).2,
        calls.filter ViewportCall.isCompile = []) ∧
    (∀ asset material, services.loadShadowCatcherAsset = some asset →
      services.materialCreate asset = some material →
      ∀ n, (runTicks n (setupShadowCatcherMaterial tracing services shadowCatcherEntity
          (ShadowCatcherMembers.initial defaultIndex)).1).2.length = n ∧
        ∀ calls ∈ (runTicks n (setupShadowCatcherMaterial tracing services shadowCatcherEntity
          (ShadowCatcherMembers.initial defaultIndex)).1).2,
          calls.filter ViewportCall.isCompile = [ViewportCall.Compile material] ∧
          compileCalls calls = 1) ∧
    (∀ asset, services.loadShadowCatcherAsset = some asset →
      services.materialCreate asset = none →
      ∀ n, ∀ calls ∈ (runTicks n (setupShadowCatcherMaterial tracing services shadowCatcherEntity
          (ShadowCatcherMembers.initial defaultIndex)).1).2,
        calls.filter ViewportCall.isCompile = []) := by
  refine ⟨?_, ?_, ?_⟩
  · intro hload
    have hsetup : setupShadowCatcherMaterial tracing services shadowCatcherEntity
        (ShadowCatcherMembers.initial defaultIndex) =
        ({ m_shadowCatcherMaterial := none,
           m_shadowCatcherOpacityPropertyIndex := defaultIndex }, []) := by
      simp [setupShadowCatcherMaterial, hload, ShadowCatcherMembers.initial]
    refine ⟨hsetup, ?_⟩
    intro n calls hcalls
    rw [hsetup, runTicks_eq] at hcalls
    rw [List.eq_of_mem_replicate hcalls]
    exact compileCalls_OnTick_none _ rfl
  · intro asset material hload hcreate n
    have hmat : (setupShadowCatcherMaterial tracing services shadowCatcherEntity
        (ShadowCatcherMembers.initial defaultIndex)).1.m_shadowCatcherMaterial =
        some material := by
      simp [setupShadowCatcherMaterial, hload, hcreate]
    rw [runTicks_eq]
    refine ⟨by simp, ?_⟩
    intro calls hcalls
    rw [List.eq_of_mem_replicate hcalls]
    have hfilter := compileCalls_OnTick_some _ material hmat
    refine ⟨hfilter, ?_⟩
    unfold compileCalls
    rw [List.countP_eq_length_filter, hfilter]
    rfl
  · intro asset hload hcreate n calls hcalls
    have hmat : (setupShadowCatcherMaterial tracing services shadowCatcherEntity
        (ShadowCatcherMembers.initial defaultIndex)).1.m_shadowCatcherMaterial = none := by
      simp [setupShadowCatcherMaterial, hload, hcreate]
    rw [runTicks_eq] at hcalls
    rw [List.eq_of_mem_replicate hcalls]
    exact compileCalls_OnTick_none _ hmat

/-- Witness of the amended C10: with the asset missing nothing is set up; with the asset
loaded and the material created, three ticks are run. -/
theorem shadow_catcher_material_compile_witness :
    setupShadowCatcherMaterial false servicesAssetMissing 5 (ShadowCatcherMembers.initial none) =
      ({ m_shadowCatcherMaterial := none, m_shadowCatcherOpacityPropertyIndex := none }, []) ∧
    (runTicks 3 (setupShadowCatcherMaterial true servicesLoaded 5
      (ShadowCatcherMembers.initial none)).1).2.length = 3 :=
  ⟨((shadow_catcher_material_compile false servicesAssetMissing 5 none).1 rfl).1,
    ((shadow_catcher_material_compile true servicesLoaded 5 none).2.1 11 21 rfl rfl 3).1⟩

/-! ## Preset selection, asset readiness and the grid -/

/-- C11: `OnModelPresetSelected` changes nothing (neither `m_modelAssetId` nor the
asset-bus connection, and no `SetModelAsset` request) when the preset is null, or its
model asset id is invalid, or that id equals the current `m_modelAssetId`; in every other
case it sends `SetModelAsset` once, sets `m_modelAssetId` to the preset's model asset id
and leaves the asset-bus handler connected on exactly that id.  Hence selecting a preset
twice in a row leaves the state of selecting it once, and the second call sends no
request. -/
theorem OnModelPresetSelected_effect (tracing : Bool) (isValid : AssetId → Bool)
    (presets : PresetAddr → ModelPreset) (modelEntity : EntityRef)
    (preset : Option PresetAddr) (w : ModelMembers) :
    ((preset = none ∨ ∃ addr, preset = some addr ∧
        (isValid (presets addr).m_modelAsset = false ∨
          (presets addr).m_modelAsset = w.m_modelAssetId)) →
      (OnModelPresetSelected tracing isValid presets modelEntity preset w).1 = w ∧
      (OnModelPresetSelected tracing isValid presets modelEntity preset w).2.filter
        ModelCall.isSetModelAsset = []) ∧
    (∀ addr, preset = some addr → isValid (presets addr).m_modelAsset = true →
      (presets addr).m_modelAsset ≠ w.m_modelAssetId →
      OnModelPresetSelected tracing isValid presets modelEntity preset w =
        ({ m_modelAssetId := (presets addr).m_modelAsset,
           assetBusConnected := [(presets addr).m_modelAsset] },
          [ModelCall.SetModelAsset modelEntity (presets addr).m_modelAsset])) ∧
    ((OnModelPresetSelected tracing isValid presets modelEntity preset
        (OnModelPresetSelected tracing isValid presets modelEntity preset w).1).1 =
        (OnModelPresetSelected tracing isValid presets modelEntity preset w).1 ∧
      (OnModelPresetSelected tracing isValid presets modelEntity preset
        (OnModelPresetSelected tracing isValid presets modelEntity preset w).1).2.filter
        ModelCall.isSetModelAsset = []) := by
  cases preset with
  | none =>
    refine ⟨fun _ => ⟨rfl, rfl⟩, ?_, rfl, rfl⟩
    intro addr h
    exact absurd h (by simp)
  | some a =>
    by_cases hv : isValid (presets a).m_modelAsset = true
    · by_cases he : (presets a).m_modelAsset = w.m_modelAssetId
      · have hsame : OnModelPresetSelected tracing isValid presets modelEntity (some a) w =
            (w, []) := by
          simp only [OnModelPresetSelected, hv]
          simp [he]
        refine ⟨fun _ => ?_, ?_, ?_⟩
        · rw [hsame]
          exact ⟨rfl, rfl⟩
        · intro addr h _ hne
          cases h
          exact absurd he hne
        · rw [hsame]
          simp only
          rw [hsame]
          exact ⟨rfl, rfl⟩
      · have hset : OnModelPresetSelected tracing isValid presets modelEntity (some a) w =
            ({ m_modelAssetId := (presets a).m_modelAsset,
               assetBusConnected := [(presets a).m_modelAsset] },
              [ModelCall.SetModelAsset modelEntity (presets a).m_modelAsset]) := by
          simp [OnModelPresetSelected, hv, he, busConnect, busDisconnectAll]
        refine ⟨?_, ?_, ?_⟩
        · rintro (h | ⟨addr, h, h' | h'⟩)
          · exact absurd h (by simp)
          · cases h
            rw [hv] at h'
            exact absurd h' (by simp)
          · cases h
            exact absurd h' he
        · intro addr h _ _
          cases h
          exact hset
        · rw [hset]
          simp [OnModelPresetSelected, hv]
    · have hv' : isValid (presets a).m_modelAsset = false := by
        cases h : isValid (presets a).m_modelAsset
        · rfl
        · exact absurd h hv
      have hwarn : ∀ w', (OnModelPresetSelected tracing isValid presets modelEntity (some a)
            w').1 = w' ∧
          (OnModelPresetSelected tracing isValid presets modelEntity (some a) w').2.filter
            ModelCall.isSetModelAsset = [] := by
        intro w'
        cases tracing <;> simp [OnModelPresetSelected, hv', azWarning, ModelCall.isSetModelAsset]
      refine ⟨fun _ => hwarn w, ?_, ?_⟩
      · intro addr h hvalid _
        cases h
        exact absurd hvalid hv
      · rw [(hwarn w).1]
        exact ⟨(hwarn w).1, (hwarn w).2⟩

/-- Witness of C11: from a fresh widget (asset id 0, no bus connection) the preset at
address 1 (model asset 30) is selected; the preset at address 3 has an invalid asset. -/
theorem OnModelPresetSelected_effect_witness :
    OnModelPresetSelected true sampleIsValid samplePresets 6 (some 1)
        { m_modelAssetId := 0, assetBusConnected := [] } =
      ({ m_modelAssetId := 30, assetBusConnected := [30] }, [ModelCall.SetModelAsset 6 30]) ∧
    (OnModelPresetSelected true sampleIsValid samplePresets 6 (some 3)
        { m_modelAssetId := 30, assetBusConnected := [30] }).1 =
      { m_modelAssetId := 30, assetBusConnected := [30] } :=
  ⟨(OnModelPresetSelected_effect true sampleIsValid samplePresets 6 (some 1)
      { m_modelAssetId := 0, assetBusConnected := [] }).2.1 1 rfl (by decide) (by decide),
    ((OnModelPresetSelected_effect true sampleIsValid samplePresets 6 (some 3)
      { m_modelAssetId := 30, assetBusConnected := [30] }).1
      (Or.inr ⟨3, rfl, Or.inl (by decide)⟩)).1⟩

/-- C12: `OnGridEnabledChanged` is a two-state toggle on the grid entity.  With
`Activate` taking `Init` to `Active` and `Deactivate` taking `Active` to `Init`, a
non-null grid entity in state `Init` or `Active` is afterwards in state `Active` if and
only if `enable` is true (and in `Init` otherwise); a second call with the same argument
changes nothing and makes no call; a null grid entity and an entity in any other state
are left untouched with no `Activate` or `Deactivate` call. -/
theorem OnGridEnabledChanged_toggle (activate deactivate : EntityState → EntityState)
    (hact : activate EntityState.Init = EntityState.Active)
    (hdeact : deactivate EntityState.Active = EntityState.Init) (enable : Bool) :
    (∀ state, state = EntityState.Init ∨ state = EntityState.Active →
      (OnGridEnabledChanged activate deactivate enable (some state)).1 =
        some (if enable then EntityState.Active else EntityState.Init) ∧
      ((OnGridEnabledChanged activate deactivate enable (some state)).1 =
        some EntityState.Active ↔ enable = true)) ∧
    (∀ gridEntity,
      OnGridEnabledChanged activate deactivate enable
        (OnGridEnabledChanged activate deactivate enable gridEntity).1 =
        ((OnGridEnabledChanged activate deactivate enable gridEntity).1, [])) ∧
    (∀ state, state ≠ EntityState.Init → state ≠ EntityState.Active →
      OnGridEnabledChanged activate deactivate enable (some state) = (some state, [])) ∧
    OnGridEnabledChanged activate deactivate enable none = (none, []) := by
  refine ⟨?_, ?_, ?_, rfl⟩
  · rintro state (h | h) <;> subst h <;> cases enable <;>
      simp [OnGridEnabledChanged, hact, hdeact]
  · intro gridEntity
    cases gridEntity with
    | none => rfl
    | some state =>
      cases state <;> cases enable <;> simp [OnGridEnabledChanged, hact, hdeact]
  · intro state h1 h2
    cases state <;> cases enable <;> simp_all [OnGridEnabledChanged]

/-- Witness of C12: a grid entity in state `Init` is enabled, one in state `Active` is
disabled. -/
theorem OnGridEnabledChanged_toggle_witness :
    (OnGridEnabledChanged sampleActivate sampleDeactivate true (some EntityState.Init)).1 =
      some EntityState.Active ∧
    (OnGridEnabledChanged sampleActivate sampleDeactivate false (some EntityState.Active)).1 =
      some EntityState.Init :=
  ⟨((OnGridEnabledChanged_toggle sampleActivate sampleDeactivate rfl rfl true).1
      EntityState.Init (Or.inl rfl)).1,
    ((OnGridEnabledChanged_toggle sampleActivate sampleDeactivate rfl rfl false).1
      EntityState.Active (Or.inr rfl)).1⟩

/-- C13: a changed preset is applied only when it is the currently selected one.
`OnLightingPresetChanged(p)` has the effect of `OnLightingPresetSelected(p)` if `p` equals
the answer of `GetLightingPresetSelection` and no effect otherwise; `OnModelPresetChanged(p)`
has the effect of `OnModelPresetSelected(p)` if `p` equals the answer of
`GetModelPresetSelection` and no effect otherwise; when `p` and the selection are both
null the call is a no-op. -/
theorem OnPresetChanged_selected_only (services : LightingServices)
    (shadow : ShadowCatcherMembers) (tracing : Bool) (isValid : AssetId → Bool)
    (presets : PresetAddr → ModelPreset) (modelEntity : EntityRef)
    (selection preset : Option PresetAddr) (lw : LightingMembers) (mw : ModelMembers) :
    (preset = selection →
      OnLightingPresetChanged services shadow selection preset lw =
        OnLightingPresetSelected services shadow preset lw ∧
      OnModelPresetChanged tracing isValid presets modelEntity selection preset mw =
        OnModelPresetSelected tracing isValid presets modelEntity preset mw) ∧
    (preset ≠ selection →
      OnLightingPresetChanged services shadow selection preset lw = (lw, []) ∧
      OnModelPresetChanged tracing isValid presets modelEntity selection preset mw =
        (mw, [])) ∧
    (preset = none → selection = none →
      OnLightingPresetChanged services shadow selection preset lw = (lw, []) ∧
      OnModelPresetChanged tracing isValid presets modelEntity selection preset mw =
        (mw, [])) := by
  refine ⟨?_, ?_, ?_⟩
  · intro h
    subst h
    simp [OnLightingPresetChanged, OnModelPresetChanged]
  · intro h
    have h' : ¬ selection = preset := fun e => h e.symm
    simp [OnLightingPresetChanged, OnModelPresetChanged, h']
  · intro hp hs
    subst hp hs
    simp [OnLightingPresetChanged, OnModelPresetChanged, OnLightingPresetSelected,
      OnModelPresetSelected]

/-- Witness of C13: the preset at address 1 is selected; a change of that preset is
applied, a change of the preset at address 2 is not. -/
theorem OnPresetChanged_selected_only_witness :
    OnLightingPresetChanged sampleLighting (ShadowCatcherMembers.initial none) (some 1) (some 1)
        { m_lightHandles := [] } =
      ({ m_lightHandles := [1] }, [LightingCall.ApplyLightingPreset 1 9 none none false]) ∧
    OnModelPresetChanged true sampleIsValid samplePresets 6 (some 1) (some 2)
        { m_modelAssetId := 30, assetBusConnected := [30] } =
      ({ m_modelAssetId := 30, assetBusConnected := [30] }, []) :=
  ⟨((OnPresetChanged_selected_only sampleLighting (ShadowCatcherMembers.initial none) true
      sampleIsValid samplePresets 6 (some 1) (some 1) { m_lightHandles := [] }
      { m_modelAssetId := 30, assetBusConnected := [30] }).1 rfl).1,
    ((OnPresetChanged_selected_only sampleLighting (ShadowCatcherMembers.initial none) true
      sampleIsValid samplePresets 6 (some 1) (some 2) { m_lightHandles := [] }
      { m_modelAssetId := 30, assetBusConnected := [30] }).2.1 (by decide)).2⟩

theorem mem_busDisconnect (id other : AssetId) (connected : List AssetId) :
    other ∈ busDisconnect id connected ↔ other ∈ connected ∧ other ≠ id := by
  simp [busDisconnect]

/-- C14: `OnAssetReady` reacts only to the currently selected model.  If the ready asset's
id equals `m_modelAssetId` it sets the controller's target bounds to the model's bounding
box, resets the controller and disconnects the asset-bus handler from that id (other
connections are kept); if the id differs it changes no state and makes no controller
call, as for the asset of a preset selected before the current one.  In both cases
`m_modelAssetId` is unchanged. -/
theorem OnAssetReady_selected_only (getAabb : AssetId → Nat) (asset : AssetId)
    (w : ModelMembers) :
    (w.m_modelAssetId = asset →
      (OnAssetReady getAabb asset w).2 =
        [ModelCall.SetTargetBounds (getAabb asset), ModelCall.Reset] ∧
      asset ∉ (OnAssetReady getAabb asset w).1.assetBusConnected ∧
      ∀ other, other ≠ asset →
        (other ∈ (OnAssetReady getAabb asset w).1.assetBusConnected ↔
          other ∈ w.assetBusConnected)) ∧
    (w.m_modelAssetId ≠ asset → OnAssetReady getAabb asset w = (w, [])) ∧
    (OnAssetReady getAabb asset w).1.m_modelAssetId = w.m_modelAssetId ∧
    (∀ (tracing : Bool) (isValid : AssetId → Bool) (presets : PresetAddr → ModelPreset)
      (modelEntity : EntityRef) (addr : PresetAddr),
      isValid (presets addr).m_modelAsset = true →
      (presets addr).m_modelAsset ≠ w.m_modelAssetId →
      (asset ≠ (presets addr).m_modelAsset →
        OnAssetReady getAabb asset
          (OnModelPresetSelected tracing isValid presets modelEntity (some addr) w).1 =
          ((OnModelPresetSelected tracing isValid presets modelEntity (some addr) w).1, [])) ∧
      (asset = (presets addr).m_modelAsset →
        OnAssetReady getAabb asset
          (OnModelPresetSelected tracing isValid presets modelEntity (some addr) w).1 =
          ({ m_modelAssetId := asset, assetBusConnected := [] },
            [ModelCall.SetTargetBounds (getAabb asset), ModelCall.Reset]))) := by
  refine ⟨?_, ?_, ?_, ?_⟩
  · intro h
    have hready : OnAssetReady getAabb asset w =
        ({ w with assetBusConnected := busDisconnect asset w.assetBusConnected },
          [ModelCall.SetTargetBounds (getAabb asset), ModelCall.Reset]) := by
      simp [OnAssetReady, h]
    rw [hready]
    refine ⟨rfl, ?_, ?_⟩
    · intro hmem
      exact ((mem_busDisconnect asset asset _).mp hmem).2 rfl
    · intro other hne
      constructor
      · intro hmem
        exact ((mem_busDisconnect asset other _).mp hmem).1
      · intro hmem
        exact (mem_busDisconnect asset other _).mpr ⟨hmem, hne⟩
  · intro h
    simp [OnAssetReady, h]
  · by_cases h : w.m_modelAssetId = asset <;> simp [OnAssetReady, h]
  · intro tracing isValid presets modelEntity addr hv hne
    have hset : OnModelPresetSelected tracing isValid presets modelEntity (some addr) w =
        ({ m_modelAssetId := (presets addr).m_modelAsset,
           assetBusConnected := [(presets addr).m_modelAsset] },
          [ModelCall.SetModelAsset modelEntity (presets addr).m_modelAsset]) := by
      simp [OnModelPresetSelected, hv, hne, busConnect, busDisconnectAll]
    rw [hset]
    constructor
    · intro ha
      have ha' : ¬ (presets addr).m_modelAsset = asset := fun e => ha e.symm
      simp [OnAssetReady, ha']
    · intro ha
      subst ha
      simp [OnAssetReady, busDisconnect]

/-- Witness of C14: the widget waits for model asset 30; asset 30 becomes ready, and
asset 31 (not the selected model) becomes ready. -/
theorem OnAssetReady_selected_only_witness :
    (OnAssetReady (fun id => id + 100) 30
        { m_modelAssetId := 30, assetBusConnected := [30] }).2 =
      [ModelCall.SetTargetBounds 130, ModelCall.Reset] ∧
    OnAssetReady (fun id => id + 100) 31
        { m_modelAssetId := 30, assetBusConnected := [30] } =
      ({ m_modelAssetId := 30, assetBusConnected := [30] }, []) :=
  ⟨((OnAssetReady_selected_only (fun id => id + 100) 30
      { m_modelAssetId := 30, assetBusConnected := [30] }).1 rfl).1,
    (OnAssetReady_selected_only (fun id => id + 100) 31
      { m_modelAssetId := 30, assetBusConnected := [30] }).2.1 (by decide)⟩

end MaterialEditor
